import Mathlib

/-!
Shallow embedding of the ring defect detector
(`Defect_Detections/src/defect_detector.py`, function `find_and_analyze_ring`,
with the threshold constant from `Defect_Detections/src/config.py`).

The embedding starts from the list of contours produced by the boundary
tracer: a contour is the ordered list of its integer pixel points.  The
enclosed area and the first-order moments of a contour are the Green-theorem
polygon quantities the OpenCV primitives `contourArea` and `moments` compute
on the traced point polygon; they are exact rationals here.  Radii are exact
real square roots of the integer squared distances.  Python `int()` on a
nonnegative quotient is floor, on a negative one it truncates toward zero.
-/

namespace DefectDetector

/-- A 2-D pixel point, as stored in a traced contour. -/
abbrev Point := ℤ × ℤ

/-- An ordered closed sequence of boundary points. -/
abbrev Contour := List Point

/-- Adjacent cyclic vertex pairs of a closed polygon: each point paired with
its successor, the last wrapping to the first. -/
def cyclicPairs {α : Type} : List α → List (α × α)
  | [] => []
  | x :: xs => List.zip (x :: xs) (xs ++ [x])

/-- Cross product of two points, the Green-theorem edge term. -/
def cross (p q : Point) : ℤ := p.1 * q.2 - q.1 * p.2

/-- Twice the signed polygon area of a contour. -/
def sA2 (c : Contour) : ℤ :=
  ((cyclicPairs c).map (fun pq => cross pq.1 pq.2)).sum

/-- Six times the signed first-order moment m10 of the polygon. -/
def sixM10 (c : Contour) : ℤ :=
  ((cyclicPairs c).map (fun pq => (pq.1.1 + pq.2.1) * cross pq.1 pq.2)).sum

/-- Six times the signed first-order moment m01 of the polygon. -/
def sixM01 (c : Contour) : ℤ :=
  ((cyclicPairs c).map (fun pq => (pq.1.2 + pq.2.2) * cross pq.1 pq.2)).sum

/-- Enclosed area of a contour, as `cv2.contourArea` computes it: the
absolute Green-theorem polygon area of the traced points. -/
def contourArea (c : Contour) : ℚ := |(sA2 c : ℚ)| / 2

/-- Exact x coordinate of the contour centroid, `m10 / m00` of the
sign-corrected polygon moments. -/
def cxQ (c : Contour) : ℚ := (sixM10 c : ℚ) / (3 * (sA2 c : ℚ))

/-- Exact y coordinate of the contour centroid, `m01 / m00`. -/
def cyQ (c : Contour) : ℚ := (sixM01 c : ℚ) / (3 * (sA2 c : ℚ))

/-- Python `int()` on an exact quotient: truncation toward zero. -/
def pytrunc (q : ℚ) : ℤ := if 0 ≤ q then ⌊q⌋ else ⌈q⌉

/-- Greatest key value in a list (`d` for the empty list). -/
def maxListKey {α β : Type} [LinearOrder β] (f : α → β) (d : β) : List α → β
  | [] => d
  | [x] => f x
  | x :: y :: t => max (f x) (maxListKey f d (y :: t))

/-- Index of the first element attaining the greatest key value, the
first-occurrence argmax `np.argmax` returns. -/
def argmaxKey {α β : Type} [LinearOrder β] (f : α → β) (d : β) : List α → ℕ
  | [] => 0
  | [_] => 0
  | x :: y :: t =>
    if f x < maxListKey f d (y :: t) then argmaxKey f d (y :: t) + 1 else 0

/-- Insert a contour into an area-descending list, before the first element
of no larger area; used to model Python's stable descending sort. -/
def insertDesc (x : Contour) : List Contour → List Contour
  | [] => [x]
  | y :: ys =>
    if contourArea x < contourArea y then y :: insertDesc x ys
    else x :: y :: ys

/-- Stable sort by enclosed area, descending: the semantics of
`sorted(contours, key=cv2.contourArea, reverse=True)`. -/
def sortDesc : List Contour → List Contour
  | [] => []
  | x :: xs => insertDesc x (sortDesc xs)

/-- The contour selected as the outer boundary: head of the area-descending
order. -/
def outer_contour (contours : List Contour) : Contour :=
  (sortDesc contours).getD 0 []

/-- The contour selected as the inner boundary: second in the
area-descending order. -/
def inner_contour (contours : List Contour) : Contour :=
  (sortDesc contours).getD 1 []

/-- `cx_outer`: the outer centroid's x coordinate after Python `int()`. -/
def cx_outer (contours : List Contour) : ℤ := pytrunc (cxQ (outer_contour contours))

/-- `cy_outer`: the outer centroid's y coordinate after Python `int()`. -/
def cy_outer (contours : List Contour) : ℤ := pytrunc (cyQ (outer_contour contours))

/-- `cx_inner`: the inner centroid's x coordinate after Python `int()`. -/
def cx_inner (contours : List Contour) : ℤ := pytrunc (cxQ (inner_contour contours))

/-- `cy_inner`: the inner centroid's y coordinate after Python `int()`. -/
def cy_inner (contours : List Contour) : ℤ := pytrunc (cyQ (inner_contour contours))

/-- `center_x = int((cx_outer + cx_inner) / 2)`. -/
def center_x (contours : List Contour) : ℤ :=
  pytrunc (((cx_outer contours : ℚ) + (cx_inner contours : ℚ)) / 2)

/-- `center_y = int((cy_outer + cy_inner) / 2)`. -/
def center_y (contours : List Contour) : ℤ :=
  pytrunc (((cy_outer contours : ℚ) + (cy_inner contours : ℚ)) / 2)

/-- The registration center the code computes. -/
def center (contours : List Contour) : Point :=
  (center_x contours, center_y contours)

/-- The threshold constant `JUMP_THRESHOLD` from `config.py`. -/
def JUMP_THRESHOLD : ℝ := 2.5

/-- Verdict of one inspection. -/
inductive Status where
  | Error : Status
  | Defective : Status
  | Good : Status
deriving DecidableEq

/-- The result dictionary the detector returns; keys absent from a branch
are `none`. -/
structure InspectionResult where
  status : Status
  defect_type : Option String
  location : Option Point
  center : Option Point
deriving DecidableEq

/-- Euclidean distance from the center to one contour point. -/
noncomputable def radius (c : Point) (p : Point) : ℝ :=
  Real.sqrt ((((p.1 - c.1) ^ 2 + (p.2 - c.2) ^ 2 : ℤ) : ℝ))

/-- The radial profile: distances from the center to each contour point in
traversal order. -/
noncomputable def radii (ctr : Contour) (c : Point) : List ℝ :=
  ctr.map (radius c)

/-- `np.roll(a, 1)`: rotate a list one position to the right. -/
def rollOne {α : Type} : List α → List α
  | [] => []
  | x :: xs => xs.getLastD x :: (x :: xs).dropLast

/-- `avg_radius`: arithmetic mean of the radial profile. -/
noncomputable def avg_radius (ctr : Contour) (c : Point) : ℝ :=
  (radii ctr c).sum / ((radii ctr c).length : ℝ)

/-- `diffs = np.abs(radii - np.roll(radii, 1))`: circular first differences
of the radial profile. -/
noncomputable def diffs (ctr : Contour) (c : Point) : List ℝ :=
  List.zipWith (fun a b => |a - b|) (radii ctr c) (rollOne (radii ctr c))

/-- `max_jump`: largest circular first difference. -/
noncomputable def max_jump (ctr : Contour) (c : Point) : ℝ :=
  maxListKey id 0 (diffs ctr c)

/-- `defect_idx = np.argmax(diffs)`. -/
noncomputable def defect_idx (ctr : Contour) (c : Point) : ℕ :=
  argmaxKey id 0 (diffs ctr c)

/-- `defect_point = contour[defect_idx][0]`. -/
noncomputable def defect_point (ctr : Contour) (c : Point) : Point :=
  ctr.getD (defect_idx ctr c) (0, 0)

/-- `np.abs(radii - avg_radius)`: per-point absolute deviation from the mean
radius. -/
noncomputable def deviations (ctr : Contour) (c : Point) : List ℝ :=
  (radii ctr c).map (fun r => |r - avg_radius ctr c|)

/-- `np.argmax(np.abs(radii - avg_radius))`. -/
noncomputable def dev_idx (ctr : Contour) (c : Point) : ℕ :=
  argmaxKey id 0 (deviations ctr c)

/-- `dev_radius = radii[np.argmax(np.abs(radii - avg_radius))]`. -/
noncomputable def dev_radius (ctr : Contour) (c : Point) : ℝ :=
  (radii ctr c).getD (dev_idx ctr c) 0

/-- One iteration of the anomaly-scan loop: `some result` when the boundary
trips the threshold, `none` when it is judged defect-free. -/
noncomputable def analyzeBoundary (c : Point) (ctr : Contour) (name : String) :
    Option InspectionResult :=
  if max_jump ctr c > JUMP_THRESHOLD then
    some ⟨Status.Defective,
      some (if name = "Outer" then
              (if dev_radius ctr c < avg_radius ctr c then "Cut" else "Flash")
            else if name = "Inner" then
              (if dev_radius ctr c < avg_radius ctr c then "Flash" else "Cut")
            else "Unknown"),
      some (defect_point ctr c), some c⟩
  else none

/-- The full detector on a traced contour list, mirroring
`find_and_analyze_ring` from the segmentation output onward. -/
noncomputable def find_and_analyze_ring (contours : List Contour) : InspectionResult :=
  if contours.length < 2 then
    ⟨Status.Error, some "Segmentation Failed", none, none⟩
  else if sA2 (outer_contour contours) = 0 ∨ sA2 (inner_contour contours) = 0 then
    ⟨Status.Error, some "Could not calculate moments", none, none⟩
  else
    match analyzeBoundary (center contours) (outer_contour contours) "Outer" with
    | some r => r
    | none =>
      match analyzeBoundary (center contours) (inner_contour contours) "Inner" with
      | some r => r
      | none => ⟨Status.Good, none, none, none⟩

/-- The registration center as the specification words it: the midpoint of
the two exact contour centroids, each coordinate independently rounded to
the nearest integer pixel. -/
def spec_center (contours : List Contour) : Point :=
  (round ((cxQ (outer_contour contours) + cxQ (inner_contour contours)) / 2),
   round ((cyQ (outer_contour contours) + cyQ (inner_contour contours)) / 2))

/-- First index attaining the greatest enclosed area, the spec-side
characterization of the stable descending selection. -/
def firstMaxIdx (l : List Contour) : ℕ := argmaxKey contourArea 0 l

/-- Greatest enclosed area occurring in a contour list. -/
def maxAreaOf (l : List Contour) : ℚ := maxListKey contourArea 0 l

/-- Spiked outer diamond: a square rotated onto the axes with one vertex
pulled outward, so every radius from the origin is an integer. -/
def exOuterA : Contour := [(9, 0), (0, 5), (-5, 0), (0, -5)]

/-- Concentric inner diamond. -/
def exInnerA : Contour := [(3, 0), (0, 3), (-3, 0), (0, -3)]

/-- Contour list with a defective outer boundary and a clean inner one. -/
def exA : List Contour := [exOuterA, exInnerA]

/-- Inner diamond with one vertex pushed outward, enlarging the hole. -/
def exInnerB : Contour := [(3, 0), (0, 3), (-7, 0), (0, -3)]

/-- Contour list where both boundaries are defective. -/
def exB : List Contour := [exOuterA, exInnerB]

/-- Contour whose circular radius differences and deviations all tie. -/
def exCtrC : Contour := [(5, 0), (0, 9), (-5, 0), (0, -9)]

/-- Contour where the largest radius jump and the largest deviation from the
mean radius occur at different indices. -/
def exCtrD : Contour := [(6, 0), (0, 9), (-5, 0), (0, -4)]

/-- Two degenerate zero-area contours. -/
def exZeroE : List Contour := [[(0, 0), (1, 0)], [(5, 5)]]

/-- Triangle of area one half. -/
def exTieA : Contour := [(0, 0), (1, 0), (0, 1)]

/-- Triangle of area two, appearing before the tied triangle below. -/
def exTieB : Contour := [(0, 0), (2, 0), (0, 2)]

/-- A second triangle of area two, tied with the previous one. -/
def exTieC : Contour := [(5, 5), (7, 5), (5, 7)]

/-- Contour list whose two largest areas tie, exercising the stable
tie-break. -/
def exTie : List Contour := [exTieA, exTieB, exTieC]

theorem maxListKey_le {α β : Type} [LinearOrder β] (f : α → β) (d : β) :
    ∀ l : List α, ∀ x ∈ l, f x ≤ maxListKey f d l := by
  intro l
  induction l with
  | nil => intro x hx; simp at hx
  | cons a t ih =>
    cases t with
    | nil =>
      intro x hx
      rw [List.mem_singleton] at hx
      subst hx
      exact le_of_eq rfl
    | cons b t2 =>
      intro x hx
      rw [show maxListKey f d (a :: b :: t2)
            = max (f a) (maxListKey f d (b :: t2)) from rfl]
      rcases List.mem_cons.mp hx with h1 | h2
      · subst h1; exact le_max_left _ _
      · exact le_trans (ih x h2) (le_max_right _ _)

theorem argmaxKey_spec {α β : Type} [LinearOrder β] (f : α → β) (d : β) :
    ∀ l : List α, l ≠ [] →
      argmaxKey f d l < l.length ∧
      (∀ a0, f (l.getD (argmaxKey f d l) a0) = maxListKey f d l) ∧
      (∀ k, k < argmaxKey f d l → ∀ a0, f (l.getD k a0) < maxListKey f d l) := by
  intro l
  induction l with
  | nil => intro h; exact absurd rfl h
  | cons a t ih =>
    cases t with
    | nil =>
      intro _
      refine ⟨by simp [argmaxKey], ?_, ?_⟩
      · intro a0; simp [argmaxKey, maxListKey]
      · intro k hk; simp [argmaxKey] at hk
    | cons b t2 =>
      intro _
      have ihs := ih (List.cons_ne_nil b t2)
      by_cases h : f a < maxListKey f d (b :: t2)
      · have he : argmaxKey f d (a :: b :: t2) = argmaxKey f d (b :: t2) + 1 := by
          simp [argmaxKey, h]
        have hm : maxListKey f d (a :: b :: t2) = maxListKey f d (b :: t2) := by
          rw [show maxListKey f d (a :: b :: t2)
                = max (f a) (maxListKey f d (b :: t2)) from rfl]
          exact max_eq_right h.le
        refine ⟨?_, ?_, ?_⟩
        · rw [he]
          exact Nat.succ_lt_succ ihs.1
        · intro a0
          rw [he, hm, List.getD_cons_succ]
          exact ihs.2.1 a0
        · intro k hk a0
          rw [hm]
          cases k with
          | zero => simpa using h
          | succ k2 =>
            rw [he] at hk
            rw [List.getD_cons_succ]
            exact ihs.2.2 k2 (Nat.lt_of_succ_lt_succ hk) a0
      · have he : argmaxKey f d (a :: b :: t2) = 0 := by simp [argmaxKey, h]
        have hm : maxListKey f d (a :: b :: t2) = f a := by
          rw [show maxListKey f d (a :: b :: t2)
                = max (f a) (maxListKey f d (b :: t2)) from rfl]
          exact max_eq_left (not_lt.mp h)
        refine ⟨by rw [he]; exact Nat.succ_pos _, ?_, ?_⟩
        · intro a0; rw [he, hm]; rfl
        · intro k hk; rw [he] at hk; exact absurd hk (Nat.not_lt_zero k)

theorem sortDesc_eq :
    ∀ l : List Contour, l ≠ [] →
      sortDesc l =
        l.getD (firstMaxIdx l) [] :: sortDesc (l.eraseIdx (firstMaxIdx l)) := by
  intro l
  induction l with
  | nil => intro h; exact absurd rfl h
  | cons a t ih =>
    cases t with
    | nil =>
      intro _
      simp [sortDesc, insertDesc, firstMaxIdx, argmaxKey]
    | cons b t2 =>
      intro _
      have ihs := ih (List.cons_ne_nil b t2)
      have hm : contourArea ((b :: t2).getD (firstMaxIdx (b :: t2)) [])
          = maxListKey contourArea 0 (b :: t2) :=
        (argmaxKey_spec contourArea 0 (b :: t2) (List.cons_ne_nil b t2)).2.1 []
      by_cases h : contourArea a < maxListKey contourArea 0 (b :: t2)
      · have he : firstMaxIdx (a :: b :: t2) = firstMaxIdx (b :: t2) + 1 := by
          simp [firstMaxIdx, argmaxKey, h]
        rw [he, List.getD_cons_succ, List.eraseIdx_cons_succ]
        rw [show sortDesc (a :: b :: t2) = insertDesc a (sortDesc (b :: t2)) from rfl]
        rw [ihs]
        rw [show sortDesc (a :: (b :: t2).eraseIdx (firstMaxIdx (b :: t2)))
              = insertDesc a (sortDesc ((b :: t2).eraseIdx (firstMaxIdx (b :: t2)))) from rfl]
        rw [show insertDesc a
              ((b :: t2).getD (firstMaxIdx (b :: t2)) []
                :: sortDesc ((b :: t2).eraseIdx (firstMaxIdx (b :: t2))))
            = if contourArea a
                  < contourArea ((b :: t2).getD (firstMaxIdx (b :: t2)) []) then
                (b :: t2).getD (firstMaxIdx (b :: t2)) []
                  :: insertDesc a (sortDesc ((b :: t2).eraseIdx (firstMaxIdx (b :: t2))))
              else
                a :: (b :: t2).getD (firstMaxIdx (b :: t2)) []
                  :: sortDesc ((b :: t2).eraseIdx (firstMaxIdx (b :: t2))) from rfl]
        rw [if_pos (by rw [hm]; exact h)]
      · have he : firstMaxIdx (a :: b :: t2) = 0 := by
          simp [firstMaxIdx, argmaxKey, h]
        rw [he, List.getD_cons_zero, List.eraseIdx_cons_zero]
        rw [show sortDesc (a :: b :: t2) = insertDesc a (sortDesc (b :: t2)) from rfl]
        rw [ihs]
        rw [show insertDesc a
              ((b :: t2).getD (firstMaxIdx (b :: t2)) []
                :: sortDesc ((b :: t2).eraseIdx (firstMaxIdx (b :: t2))))
            = if contourArea a
                  < contourArea ((b :: t2).getD (firstMaxIdx (b :: t2)) []) then
                (b :: t2).getD (firstMaxIdx (b :: t2)) []
                  :: insertDesc a (sortDesc ((b :: t2).eraseIdx (firstMaxIdx (b :: t2))))
              else
                a :: (b :: t2).getD (firstMaxIdx (b :: t2)) []
                  :: sortDesc ((b :: t2).eraseIdx (firstMaxIdx (b :: t2))) from rfl]
        rw [if_neg (by rw [hm]; exact h), ← ihs]

theorem outer_contour_eq (l : List Contour) (h : l ≠ []) :
    outer_contour l = l.getD (firstMaxIdx l) [] := by
  rw [outer_contour, sortDesc_eq l h, List.getD_cons_zero]

theorem inner_contour_eq (l : List Contour) (h : 2 ≤ l.length) :
    inner_contour l =
      (l.eraseIdx (firstMaxIdx l)).getD
        (firstMaxIdx (l.eraseIdx (firstMaxIdx l))) [] := by
  have hne : l ≠ [] := by
    intro hnil; rw [hnil] at h; simp at h
  have hfi : firstMaxIdx l < l.length :=
    (argmaxKey_spec contourArea 0 l hne).1
  have hlen : (l.eraseIdx (firstMaxIdx l)).length = l.length - 1 := by
    rw [List.length_eraseIdx]
    simp [hfi]
  have hne2 : l.eraseIdx (firstMaxIdx l) ≠ [] := by
    intro hnil
    rw [hnil] at hlen
    simp at hlen
    omega
  rw [inner_contour, sortDesc_eq l hne, List.getD_cons_succ,
    sortDesc_eq _ hne2, List.getD_cons_zero]

theorem analyzeBoundary_pos_outer (c : Point) (ctr : Contour)
    (h : max_jump ctr c > JUMP_THRESHOLD) :
    analyzeBoundary c ctr "Outer"
      = some ⟨Status.Defective,
          some (if dev_radius ctr c < avg_radius ctr c then "Cut" else "Flash"),
          some (defect_point ctr c), some c⟩ := by
  rw [analyzeBoundary, if_pos h, if_pos rfl]

theorem analyzeBoundary_pos_inner (c : Point) (ctr : Contour)
    (h : max_jump ctr c > JUMP_THRESHOLD) :
    analyzeBoundary c ctr "Inner"
      = some ⟨Status.Defective,
          some (if dev_radius ctr c < avg_radius ctr c then "Flash" else "Cut"),
          some (defect_point ctr c), some c⟩ := by
  rw [analyzeBoundary, if_pos h, if_neg (by decide), if_pos rfl]

theorem analyzeBoundary_neg (c : Point) (ctr : Contour) (name : String)
    (h : ¬ max_jump ctr c > JUMP_THRESHOLD) :
    analyzeBoundary c ctr name = none := by
  rw [analyzeBoundary, if_neg h]

theorem analyzeBoundary_some_shape (c : Point) (ctr : Contour) (name : String)
    (r : InspectionResult) (h : analyzeBoundary c ctr name = some r) :
    r.status = Status.Defective ∧ r.location = some (defect_point ctr c) ∧
      r.center = some c := by
  rw [analyzeBoundary] at h
  by_cases hm : max_jump ctr c > JUMP_THRESHOLD
  · rw [if_pos hm, Option.some.injEq] at h
    subst h
    exact ⟨rfl, rfl, rfl⟩
  · rw [if_neg hm] at h
    exact absurd h (by simp)

theorem radius_eval (c p : Point) (n : ℕ)
    (h : (p.1 - c.1) ^ 2 + (p.2 - c.2) ^ 2 = (n : ℤ) ^ 2) :
    radius c p = (n : ℝ) := by
  rw [radius, h]
  push_cast
  exact Real.sqrt_sq (Nat.cast_nonneg n)

theorem outerA : outer_contour exA = exOuterA := by
  norm_num [outer_contour, sortDesc, insertDesc, contourArea, sA2, cyclicPairs,
    cross, exA, exOuterA, exInnerA]

theorem innerA : inner_contour exA = exInnerA := by
  norm_num [inner_contour, sortDesc, insertDesc, contourArea, sA2, cyclicPairs,
    cross, exA, exOuterA, exInnerA]

theorem centerA : center exA = (0, 0) := by
  norm_num [center, center_x, center_y, cx_outer, cx_inner, cy_outer, cy_inner,
    outer_contour, inner_contour, sortDesc, insertDesc, contourArea,
    cxQ, cyQ, pytrunc, sixM10, sixM01, sA2, cyclicPairs, cross, exA, exOuterA,
    exInnerA]

theorem specCenterA : spec_center exA = (1, 0) := by
  rw [spec_center, outerA, innerA]
  norm_num [cxQ, cyQ, sixM10, sixM01, sA2, cyclicPairs, cross, exOuterA,
    exInnerA, round_eq]

theorem radiiA : radii exOuterA (0, 0) = [9, 5, 5, 5] := by
  rw [exOuterA, radii, List.map_cons, List.map_cons, List.map_cons,
    List.map_cons, List.map_nil,
    radius_eval _ _ 9 (by decide), radius_eval _ _ 5 (by decide),
    radius_eval _ _ 5 (by decide), radius_eval _ _ 5 (by decide)]
  norm_num

theorem diffsA : diffs exOuterA (0, 0) = [4, 4, 0, 0] := by
  rw [diffs, radiiA]
  norm_num [rollOne, List.getLastD, List.dropLast, List.zipWith]

theorem maxJumpA : max_jump exOuterA (0, 0) = 4 := by
  rw [max_jump, diffsA]
  norm_num [maxListKey]

theorem avgA : avg_radius exOuterA (0, 0) = 6 := by
  rw [avg_radius, radiiA]
  norm_num

theorem defectIdxA : defect_idx exOuterA (0, 0) = 0 := by
  rw [defect_idx, diffsA]
  norm_num [argmaxKey, maxListKey]

theorem devsA : deviations exOuterA (0, 0) = [3, 1, 1, 1] := by
  rw [deviations, radiiA, avgA]
  norm_num [List.map]

theorem devIdxA : dev_idx exOuterA (0, 0) = 0 := by
  rw [dev_idx, devsA]
  norm_num [argmaxKey, maxListKey]

theorem devRadiusA : dev_radius exOuterA (0, 0) = 9 := by
  rw [dev_radius, devIdxA, radiiA]
  rfl

theorem analyzeA : analyzeBoundary (0, 0) exOuterA "Outer"
    = some ⟨Status.Defective, some "Flash", some (9, 0), some (0, 0)⟩ := by
  rw [analyzeBoundary_pos_outer _ _ (by rw [maxJumpA, JUMP_THRESHOLD]; norm_num)]
  rw [if_neg (by rw [devRadiusA, avgA]; norm_num)]
  rw [defect_point, defectIdxA]
  rfl

theorem findA : find_and_analyze_ring exA
    = ⟨Status.Defective, some "Flash", some (9, 0), some (0, 0)⟩ := by
  rw [find_and_analyze_ring, if_neg (by norm_num [exA])]
  rw [if_neg (by rw [outerA, innerA]; decide)]
  rw [outerA, centerA, analyzeA]

theorem outerB : outer_contour exB = exOuterA := by
  norm_num [outer_contour, sortDesc, insertDesc, contourArea, sA2, cyclicPairs,
    cross, exB, exOuterA, exInnerB]

theorem innerB : inner_contour exB = exInnerB := by
  norm_num [inner_contour, sortDesc, insertDesc, contourArea, sA2, cyclicPairs,
    cross, exB, exOuterA, exInnerB]

theorem centerB : center exB = (0, 0) := by
  have hxo : cx_outer exB = 1 := by
    rw [cx_outer, outerB]
    norm_num [cxQ, sixM10, sA2, cyclicPairs, cross, exOuterA, pytrunc]
  have hxi : cx_inner exB = -1 := by
    rw [cx_inner, innerB]
    norm_num [cxQ, sixM10, sA2, cyclicPairs, cross, exInnerB, pytrunc]
    rw [Int.ceil_eq_iff]
    constructor <;> norm_num
  have hyo : cy_outer exB = 0 := by
    rw [cy_outer, outerB]
    norm_num [cyQ, sixM01, sA2, cyclicPairs, cross, exOuterA, pytrunc]
  have hyi : cy_inner exB = 0 := by
    rw [cy_inner, innerB]
    norm_num [cyQ, sixM01, sA2, cyclicPairs, cross, exInnerB, pytrunc]
  rw [center, center_x, center_y, hxo, hxi, hyo, hyi]
  norm_num [pytrunc]

theorem radiiB : radii exInnerB (0, 0) = [3, 3, 7, 3] := by
  rw [exInnerB, radii, List.map_cons, List.map_cons, List.map_cons,
    List.map_cons, List.map_nil,
    radius_eval _ _ 3 (by decide), radius_eval _ _ 3 (by decide),
    radius_eval _ _ 7 (by decide), radius_eval _ _ 3 (by decide)]
  norm_num

theorem diffsB : diffs exInnerB (0, 0) = [0, 0, 4, 4] := by
  rw [diffs, radiiB]
  norm_num [rollOne, List.getLastD, List.dropLast, List.zipWith]

theorem maxJumpB : max_jump exInnerB (0, 0) = 4 := by
  rw [max_jump, diffsB]
  norm_num [maxListKey]

theorem avgB : avg_radius exInnerB (0, 0) = 4 := by
  rw [avg_radius, radiiB]
  norm_num

theorem devsB : deviations exInnerB (0, 0) = [1, 1, 3, 1] := by
  rw [deviations, radiiB, avgB]
  norm_num [List.map]

theorem devIdxB : dev_idx exInnerB (0, 0) = 2 := by
  rw [dev_idx, devsB]
  norm_num [argmaxKey, maxListKey]

theorem devRadiusB : dev_radius exInnerB (0, 0) = 7 := by
  rw [dev_radius, devIdxB, radiiB]
  rfl

theorem defectIdxB : defect_idx exInnerB (0, 0) = 2 := by
  rw [defect_idx, diffsB]
  norm_num [argmaxKey, maxListKey]

theorem defectPointB : defect_point exInnerB (0, 0) = (-7, 0) := by
  rw [defect_point, defectIdxB]
  rfl

theorem radiiC : radii exCtrC (0, 0) = [5, 9, 5, 9] := by
  rw [exCtrC, radii, List.map_cons, List.map_cons, List.map_cons,
    List.map_cons, List.map_nil,
    radius_eval _ _ 5 (by decide), radius_eval _ _ 9 (by decide),
    radius_eval _ _ 5 (by decide), radius_eval _ _ 9 (by decide)]
  norm_num

theorem diffsC : diffs exCtrC (0, 0) = [4, 4, 4, 4] := by
  rw [diffs, radiiC]
  norm_num [rollOne, List.getLastD, List.dropLast, List.zipWith]

theorem maxJumpC : max_jump exCtrC (0, 0) = 4 := by
  rw [max_jump, diffsC]
  norm_num [maxListKey]

theorem avgC : avg_radius exCtrC (0, 0) = 7 := by
  rw [avg_radius, radiiC]
  norm_num

theorem devsC : deviations exCtrC (0, 0) = [2, 2, 2, 2] := by
  rw [deviations, radiiC, avgC]
  norm_num [List.map]

theorem radiiD : radii exCtrD (0, 0) = [6, 9, 5, 4] := by
  rw [exCtrD, radii, List.map_cons, List.map_cons, List.map_cons,
    List.map_cons, List.map_nil,
    radius_eval _ _ 6 (by decide), radius_eval _ _ 9 (by decide),
    radius_eval _ _ 5 (by decide), radius_eval _ _ 4 (by decide)]
  norm_num

theorem diffsD : diffs exCtrD (0, 0) = [2, 3, 4, 1] := by
  rw [diffs, radiiD]
  norm_num [rollOne, List.getLastD, List.dropLast, List.zipWith]

theorem maxJumpD : max_jump exCtrD (0, 0) = 4 := by
  rw [max_jump, diffsD]
  norm_num [maxListKey]

theorem avgD : avg_radius exCtrD (0, 0) = 6 := by
  rw [avg_radius, radiiD]
  norm_num

theorem devsD : deviations exCtrD (0, 0) = [0, 3, 1, 2] := by
  rw [deviations, radiiD, avgD]
  norm_num [List.map]

theorem defectIdxD : defect_idx exCtrD (0, 0) = 2 := by
  rw [defect_idx, diffsD]
  norm_num [argmaxKey, maxListKey]

theorem devIdxD : dev_idx exCtrD (0, 0) = 1 := by
  rw [dev_idx, devsD]
  norm_num [argmaxKey, maxListKey]

theorem outerE : outer_contour exZeroE = [(0, 0), (1, 0)] := by
  norm_num [outer_contour, sortDesc, insertDesc, contourArea, sA2, cyclicPairs,
    cross, exZeroE]

theorem contourArea_eq_zero (c : Contour) : contourArea c = 0 ↔ sA2 c = 0 := by
  rw [contourArea, div_eq_zero_iff, abs_eq_zero, Int.cast_eq_zero]
  simp

theorem find_defective_cases (l : List Contour)
    (h : (find_and_analyze_ring l).status = Status.Defective) :
    (find_and_analyze_ring l).center = some (center l) ∧
    ((find_and_analyze_ring l).location
        = some (defect_point (outer_contour l) (center l)) ∨
     (find_and_analyze_ring l).location
        = some (defect_point (inner_contour l) (center l))) := by
  by_cases h1 : l.length < 2
  · rw [find_and_analyze_ring, if_pos h1] at h
    exact absurd h (by simp)
  by_cases h2 : sA2 (outer_contour l) = 0 ∨ sA2 (inner_contour l) = 0
  · rw [find_and_analyze_ring, if_neg h1, if_pos h2] at h
    exact absurd h (by simp)
  rcases hmo : analyzeBoundary (center l) (outer_contour l) "Outer" with _ | r
  · rcases hmi : analyzeBoundary (center l) (inner_contour l) "Inner" with _ | r2
    · rw [find_and_analyze_ring, if_neg h1, if_neg h2, hmo, hmi] at h
      exact absurd h (by simp)
    · have hs := analyzeBoundary_some_shape _ _ _ _ hmi
      rw [find_and_analyze_ring, if_neg h1, if_neg h2, hmo, hmi]
      exact ⟨hs.2.2, Or.inr hs.2.1⟩
  · have hs := analyzeBoundary_some_shape _ _ _ _ hmo
    rw [find_and_analyze_ring, if_neg h1, if_neg h2, hmo]
    exact ⟨hs.2.2, Or.inl hs.2.1⟩

/-- C1 counterexample: on the contour list `exA` the detector reaches a
Defective verdict, yet the center it returns, (0, 0), is not the
round-to-nearest midpoint of the two exact boundary centroids, which is
(1, 0): the code truncates each centroid toward zero and truncates the
half-sum again, so the claimed formula disagrees with the returned center. -/
theorem C1_counterexample :
    (find_and_analyze_ring exA).status = Status.Defective ∧
    (find_and_analyze_ring exA).center = some (0, 0) ∧
    spec_center exA = (1, 0) ∧
    ¬ (find_and_analyze_ring exA).center = some (spec_center exA) := by
  rw [findA, specCenterA]
  exact ⟨rfl, rfl, rfl, by decide⟩

/-- C1 (amended): for every Defective result, the returned registration
center is the component-wise Python-int truncation of the half-sum of the
two individually truncated boundary centroids, not the rounded midpoint of
the exact centroids. -/
theorem C1_center_two_stage_truncation (l : List Contour)
    (h : (find_and_analyze_ring l).status = Status.Defective) :
    (find_and_analyze_ring l).center
      = some (pytrunc (((pytrunc (cxQ (outer_contour l)) : ℚ)
                + (pytrunc (cxQ (inner_contour l)) : ℚ)) / 2),
              pytrunc (((pytrunc (cyQ (outer_contour l)) : ℚ)
                + (pytrunc (cyQ (inner_contour l)) : ℚ)) / 2)) :=
  (find_defective_cases l h).1

/-- Witness for C1 (amended) at the concrete contour list `exA`. -/
theorem C1_center_two_stage_truncation_witness :
    (find_and_analyze_ring exA).status = Status.Defective ∧
    (find_and_analyze_ring exA).center
      = some (pytrunc (((pytrunc (cxQ (outer_contour exA)) : ℚ)
                + (pytrunc (cxQ (inner_contour exA)) : ℚ)) / 2),
              pytrunc (((pytrunc (cyQ (outer_contour exA)) : ℚ)
                + (pytrunc (cyQ (inner_contour exA)) : ℚ)) / 2)) :=
  ⟨by rw [findA], C1_center_two_stage_truncation exA (by rw [findA])⟩

/-- C2: when a boundary's max_jump exceeds the threshold, the defect type is
decided by comparing dev_radius with avg_radius: on the outer boundary
dev_radius < avg_radius gives Cut and otherwise Flash, on the inner
boundary dev_radius < avg_radius gives Flash and otherwise Cut. -/
theorem C2_cut_flash_classification (c : Point) (ctr : Contour)
    (h : max_jump ctr c > JUMP_THRESHOLD) :
    analyzeBoundary c ctr "Outer"
      = some ⟨Status.Defective,
          some (if dev_radius ctr c < avg_radius ctr c then "Cut" else "Flash"),
          some (defect_point ctr c), some c⟩ ∧
    analyzeBoundary c ctr "Inner"
      = some ⟨Status.Defective,
          some (if dev_radius ctr c < avg_radius ctr c then "Flash" else "Cut"),
          some (defect_point ctr c), some c⟩ :=
  ⟨analyzeBoundary_pos_outer c ctr h, analyzeBoundary_pos_inner c ctr h⟩

/-- Witness for C2 on a concrete inner boundary whose hole is enlarged:
dev_radius 7 is not below avg_radius 4, so the inner rule reports Cut. -/
theorem C2_cut_flash_classification_witness :
    max_jump exInnerB (0, 0) > JUMP_THRESHOLD ∧
    analyzeBoundary (0, 0) exInnerB "Inner"
      = some ⟨Status.Defective, some "Cut", some (-7, 0), some (0, 0)⟩ := by
  have h : max_jump exInnerB (0, 0) > JUMP_THRESHOLD := by
    rw [maxJumpB, JUMP_THRESHOLD]; norm_num
  refine ⟨h, ?_⟩
  rw [(C2_cut_flash_classification (0, 0) exInnerB h).2,
    if_neg (by rw [devRadiusB, avgB]; norm_num), defectPointB]

/-- C3: the anomaly scan evaluates the outer boundary first and returns on
it; when both boundaries exceed the threshold the result carries the outer
boundary's defect type and location. -/
theorem C3_outer_short_circuit (l : List Contour)
    (h1 : ¬ l.length < 2)
    (h2 : ¬ (sA2 (outer_contour l) = 0 ∨ sA2 (inner_contour l) = 0))
    (ho : max_jump (outer_contour l) (center l) > JUMP_THRESHOLD)
    (_hi : max_jump (inner_contour l) (center l) > JUMP_THRESHOLD) :
    find_and_analyze_ring l
      = ⟨Status.Defective,
          some (if dev_radius (outer_contour l) (center l)
                    < avg_radius (outer_contour l) (center l)
                then "Cut" else "Flash"),
          some (defect_point (outer_contour l) (center l)),
          some (center l)⟩ := by
  rw [find_and_analyze_ring, if_neg h1, if_neg h2,
    analyzeBoundary_pos_outer _ _ ho]

/-- Witness for C3 at `exB`, where the outer and the inner boundary each
exceed the threshold: the verdict is the outer boundary's Flash at (9, 0). -/
theorem C3_outer_short_circuit_witness :
    find_and_analyze_ring exB
      = ⟨Status.Defective, some "Flash", some (9, 0), some (0, 0)⟩ := by
  have h := C3_outer_short_circuit exB (by norm_num [exB])
    (by rw [outerB, innerB]; decide)
    (by rw [outerB, centerB, maxJumpA, JUMP_THRESHOLD]; norm_num)
    (by rw [innerB, centerB, maxJumpB, JUMP_THRESHOLD]; norm_num)
  rw [h, outerB, centerB, if_neg (by rw [devRadiusA, avgA]; norm_num),
    defect_point, defectIdxA]
  rfl

/-- C4: every Defective result's location is the contour point at the index
of the maximum circular first difference of radii (via defect_point, which
reads the contour at defect_idx); moreover that index and the index of
maximum absolute deviation from the mean radius are computed independently
and can differ. -/
theorem C4_location_at_jump_index :
    (∀ l : List Contour,
        (find_and_analyze_ring l).status = Status.Defective →
        (find_and_analyze_ring l).location
            = some (defect_point (outer_contour l) (center l)) ∨
        (find_and_analyze_ring l).location
            = some (defect_point (inner_contour l) (center l))) ∧
    (∃ ctr : Contour, ∃ c : Point,
        max_jump ctr c > JUMP_THRESHOLD ∧ defect_idx ctr c ≠ dev_idx ctr c) := by
  constructor
  · intro l h
    exact (find_defective_cases l h).2
  · refine ⟨exCtrD, (0, 0), ?_, ?_⟩
    · rw [maxJumpD, JUMP_THRESHOLD]; norm_num
    · rw [defectIdxD, devIdxD]; decide

/-- Witness for C4 at the concrete Defective run on `exA`. -/
theorem C4_location_at_jump_index_witness :
    (find_and_analyze_ring exA).status = Status.Defective ∧
    ((find_and_analyze_ring exA).location
        = some (defect_point (outer_contour exA) (center exA)) ∨
     (find_and_analyze_ring exA).location
        = some (defect_point (inner_contour exA) (center exA))) :=
  ⟨by rw [findA], C4_location_at_jump_index.1 exA (by rw [findA])⟩

/-- C5: a boundary contributes no Defective result exactly when its max_jump
is at most the fixed threshold 2.5; on inputs that reach the scan, the
verdict is Defective exactly when some boundary's max_jump is strictly
greater than the threshold. -/
theorem C5_jump_threshold :
    JUMP_THRESHOLD = 2.5 ∧
    (∀ (c : Point) (ctr : Contour) (name : String),
        analyzeBoundary c ctr name = none ↔
          max_jump ctr c ≤ JUMP_THRESHOLD) ∧
    (∀ l : List Contour, ¬ l.length < 2 →
        ¬ (sA2 (outer_contour l) = 0 ∨ sA2 (inner_contour l) = 0) →
        ((find_and_analyze_ring l).status = Status.Defective ↔
          max_jump (outer_contour l) (center l) > JUMP_THRESHOLD ∨
          max_jump (inner_contour l) (center l) > JUMP_THRESHOLD)) := by
  refine ⟨rfl, ?_, ?_⟩
  · intro c ctr name
    by_cases h : max_jump ctr c > JUMP_THRESHOLD
    · rw [analyzeBoundary, if_pos h]
      exact iff_of_false (by simp) (not_le.mpr h)
    · rw [analyzeBoundary_neg c ctr name h]
      exact iff_of_true rfl (not_lt.mp h)
  · intro l h1 h2
    by_cases ho : max_jump (outer_contour l) (center l) > JUMP_THRESHOLD
    · rw [find_and_analyze_ring, if_neg h1, if_neg h2,
        analyzeBoundary_pos_outer _ _ ho]
      exact iff_of_true rfl (Or.inl ho)
    · rw [find_and_analyze_ring, if_neg h1, if_neg h2,
        analyzeBoundary_neg _ _ _ ho]
      by_cases hi : max_jump (inner_contour l) (center l) > JUMP_THRESHOLD
      · rw [analyzeBoundary_pos_inner _ _ hi]
        exact iff_of_true rfl (Or.inr hi)
      · rw [analyzeBoundary_neg _ _ _ hi]
        exact iff_of_false (by simp) (fun hor => hor.elim ho hi)

/-- Witness for C5 at `exA`, which reaches the anomaly scan. -/
theorem C5_jump_threshold_witness :
    (find_and_analyze_ring exA).status = Status.Defective ↔
      max_jump (outer_contour exA) (center exA) > JUMP_THRESHOLD ∨
      max_jump (inner_contour exA) (center exA) > JUMP_THRESHOLD :=
  C5_jump_threshold.2.2 exA (by norm_num [exA]) (by rw [outerA, innerA]; decide)

/-- C6: fewer than two traced boundaries always yield the
"Segmentation Failed" Error result. -/
theorem C6_segmentation_failed (l : List Contour) (h : l.length < 2) :
    find_and_analyze_ring l
      = ⟨Status.Error, some "Segmentation Failed", none, none⟩ := by
  rw [find_and_analyze_ring, if_pos h]

/-- Witness for C6 on the empty and the one-contour input. -/
theorem C6_segmentation_failed_witness :
    find_and_analyze_ring []
      = ⟨Status.Error, some "Segmentation Failed", none, none⟩ ∧
    find_and_analyze_ring [exOuterA]
      = ⟨Status.Error, some "Segmentation Failed", none, none⟩ :=
  ⟨C6_segmentation_failed [] (by norm_num),
   C6_segmentation_failed [exOuterA] (by norm_num)⟩

/-- C7: with at least two boundaries but a zero-area selected contour, the
result is the "Could not calculate moments" Error and no anomaly scan
output is produced. -/
theorem C7_zero_area_error (l : List Contour) (h1 : 2 ≤ l.length)
    (h2 : contourArea (outer_contour l) = 0 ∨
          contourArea (inner_contour l) = 0) :
    find_and_analyze_ring l
      = ⟨Status.Error, some "Could not calculate moments", none, none⟩ := by
  have hz : sA2 (outer_contour l) = 0 ∨ sA2 (inner_contour l) = 0 := by
    rcases h2 with h | h
    · exact Or.inl ((contourArea_eq_zero _).mp h)
    · exact Or.inr ((contourArea_eq_zero _).mp h)
  rw [find_and_analyze_ring, if_neg (not_lt.mpr h1), if_pos hz]

/-- Witness for C7 on two degenerate contours of zero enclosed area. -/
theorem C7_zero_area_error_witness :
    find_and_analyze_ring exZeroE
      = ⟨Status.Error, some "Could not calculate moments", none, none⟩ :=
  C7_zero_area_error exZeroE (by norm_num [exZeroE])
    (Or.inl (by rw [outerE]; norm_num [contourArea, sA2, cyclicPairs, cross]))

/-- C8: in every returned result the location and center fields are
populated exactly when the status is Defective; Good and Error results
carry neither. -/
theorem C8_location_center_iff_defective (l : List Contour) :
    ((find_and_analyze_ring l).location ≠ none ↔
      (find_and_analyze_ring l).status = Status.Defective) ∧
    ((find_and_analyze_ring l).center ≠ none ↔
      (find_and_analyze_ring l).status = Status.Defective) := by
  by_cases h1 : l.length < 2
  · rw [find_and_analyze_ring, if_pos h1]
    exact ⟨iff_of_false (by simp) (by simp), iff_of_false (by simp) (by simp)⟩
  by_cases h2 : sA2 (outer_contour l) = 0 ∨ sA2 (inner_contour l) = 0
  · rw [find_and_analyze_ring, if_neg h1, if_pos h2]
    exact ⟨iff_of_false (by simp) (by simp), iff_of_false (by simp) (by simp)⟩
  rcases hmo : analyzeBoundary (center l) (outer_contour l) "Outer" with _ | r
  · rcases hmi : analyzeBoundary (center l) (inner_contour l) "Inner" with _ | r2
    · rw [find_and_analyze_ring, if_neg h1, if_neg h2, hmo, hmi]
      exact ⟨iff_of_false (by simp) (by simp), iff_of_false (by simp) (by simp)⟩
    · have hs := analyzeBoundary_some_shape _ _ _ _ hmi
      rw [find_and_analyze_ring, if_neg h1, if_neg h2, hmo, hmi]
      exact ⟨iff_of_true (by simp [hs.2.1]) hs.1,
             iff_of_true (by simp [hs.2.2]) hs.1⟩
  · have hs := analyzeBoundary_some_shape _ _ _ _ hmo
    rw [find_and_analyze_ring, if_neg h1, if_neg h2, hmo]
    exact ⟨iff_of_true (by simp [hs.2.1]) hs.1,
           iff_of_true (by simp [hs.2.2]) hs.1⟩

/-- C9: with two or more boundaries, the outer contour is the first contour
of maximal enclosed area in traced order, the inner contour is the first
contour of maximal area among the rest, and every traced contour's area is
bounded by the outer one's: the selection takes the two largest areas in
descending order with ties broken by the tracer's stable order. -/
theorem C9_top_two_selection (l : List Contour) (h : 2 ≤ l.length) :
    outer_contour l = l.getD (firstMaxIdx l) [] ∧
    inner_contour l
      = (l.eraseIdx (firstMaxIdx l)).getD
          (firstMaxIdx (l.eraseIdx (firstMaxIdx l))) [] ∧
    contourArea (outer_contour l) = maxAreaOf l ∧
    contourArea (inner_contour l) = maxAreaOf (l.eraseIdx (firstMaxIdx l)) ∧
    (∀ x ∈ l, contourArea x ≤ contourArea (outer_contour l)) := by
  have hne : l ≠ [] := by intro hnil; rw [hnil] at h; simp at h
  have ho := outer_contour_eq l hne
  have hi := inner_contour_eq l h
  have hfi : firstMaxIdx l < l.length := (argmaxKey_spec contourArea 0 l hne).1
  have hne2 : l.eraseIdx (firstMaxIdx l) ≠ [] := by
    have hlen : (l.eraseIdx (firstMaxIdx l)).length = l.length - 1 := by
      rw [List.length_eraseIdx]; simp [hfi]
    intro hnil; rw [hnil] at hlen; simp at hlen; omega
  refine ⟨ho, hi, ?_, ?_, ?_⟩
  · rw [ho]; exact (argmaxKey_spec contourArea 0 l hne).2.1 []
  · rw [hi]; exact (argmaxKey_spec contourArea 0 _ hne2).2.1 []
  · intro x hx
    rw [ho, firstMaxIdx, (argmaxKey_spec contourArea 0 l hne).2.1 []]
    exact maxListKey_le contourArea 0 l x hx

/-- Witness for C9 on `exTie`, whose two largest areas tie: the stable
order keeps the earlier triangle as the outer boundary. -/
theorem C9_top_two_selection_witness :
    outer_contour exTie = exTieB ∧ inner_contour exTie = exTieC := by
  have h := C9_top_two_selection exTie (by norm_num [exTie])
  constructor
  · rw [h.1]
    norm_num [exTie, firstMaxIdx, argmaxKey, maxListKey, contourArea, sA2,
      cyclicPairs, cross, exTieA, exTieB, exTieC, List.getD]
  · rw [h.2.1]
    norm_num [exTie, firstMaxIdx, argmaxKey, maxListKey, contourArea, sA2,
      cyclicPairs, cross, exTieA, exTieB, exTieC, List.getD, List.eraseIdx]

/-- C10: when several circular radius differences tie for the maximum, the
defect index is the smallest index attaining it, and when several points
tie for the largest absolute deviation from the mean radius, the deviation
index is likewise the smallest, so location and classification are
deterministic under ties. -/
theorem C10_first_occurrence_tie_break (ctr : Contour) (c : Point)
    (hjump : ∃ i j : ℕ, i < j ∧ j < (diffs ctr c).length ∧
        (diffs ctr c).getD i 0 = max_jump ctr c ∧
        (diffs ctr c).getD j 0 = max_jump ctr c)
    (hdev : ∃ i j : ℕ, i < j ∧ j < (deviations ctr c).length ∧
        (deviations ctr c).getD i 0 = maxListKey id 0 (deviations ctr c) ∧
        (deviations ctr c).getD j 0 = maxListKey id 0 (deviations ctr c)) :
    ((diffs ctr c).getD (defect_idx ctr c) 0 = max_jump ctr c ∧
      ∀ k, k < defect_idx ctr c →
        (diffs ctr c).getD k 0 < max_jump ctr c) ∧
    ((deviations ctr c).getD (dev_idx ctr c) 0
        = maxListKey id 0 (deviations ctr c) ∧
      ∀ k, k < dev_idx ctr c →
        (deviations ctr c).getD k 0 < maxListKey id 0 (deviations ctr c)) := by
  obtain ⟨i, j, _, hj, _, _⟩ := hjump
  obtain ⟨i2, j2, _, hj2, _, _⟩ := hdev
  have hne : diffs ctr c ≠ [] := by
    intro hnil; rw [hnil] at hj; simp at hj
  have hne2 : deviations ctr c ≠ [] := by
    intro hnil; rw [hnil] at hj2; simp at hj2
  have s1 := argmaxKey_spec id 0 (diffs ctr c) hne
  have s2 := argmaxKey_spec id 0 (deviations ctr c) hne2
  exact ⟨⟨s1.2.1 0, fun k hk => s1.2.2 k hk 0⟩,
         ⟨s2.2.1 0, fun k hk => s2.2.2 k hk 0⟩⟩

/-- Witness for C10 on `exCtrC`, whose radius differences are [4,4,4,4] and
whose deviations are [2,2,2,2]: both argmaxes land on a tied maximum. -/
theorem C10_first_occurrence_tie_break_witness :
    (diffs exCtrC (0, 0)).getD (defect_idx exCtrC (0, 0)) 0
      = max_jump exCtrC (0, 0) ∧
    (deviations exCtrC (0, 0)).getD (dev_idx exCtrC (0, 0)) 0
      = maxListKey id 0 (deviations exCtrC (0, 0)) := by
  have hjump : ∃ i j : ℕ, i < j ∧ j < (diffs exCtrC (0, 0)).length ∧
      (diffs exCtrC (0, 0)).getD i 0 = max_jump exCtrC (0, 0) ∧
      (diffs exCtrC (0, 0)).getD j 0 = max_jump exCtrC (0, 0) := by
    refine ⟨0, 1, by norm_num, ?_, ?_, ?_⟩
    · rw [diffsC]; norm_num
    · rw [diffsC, maxJumpC]; norm_num
    · rw [diffsC, maxJumpC]; norm_num
  have hdev : ∃ i j : ℕ, i < j ∧ j < (deviations exCtrC (0, 0)).length ∧
      (deviations exCtrC (0, 0)).getD i 0
        = maxListKey id 0 (deviations exCtrC (0, 0)) ∧
      (deviations exCtrC (0, 0)).getD j 0
        = maxListKey id 0 (deviations exCtrC (0, 0)) := by
    refine ⟨0, 1, by norm_num, ?_, ?_, ?_⟩
    · rw [devsC]; norm_num
    · rw [devsC]; norm_num [maxListKey]
    · rw [devsC]; norm_num [maxListKey]
  exact ⟨(C10_first_occurrence_tie_break exCtrC (0, 0) hjump hdev).1.1,
         (C10_first_occurrence_tie_break exCtrC (0, 0) hjump hdev).2.1⟩

end DefectDetector
